import Mathlib

/-!
Verification of the gesture-recognition core of `detector.py`
(`Air-Gesture-Control`).

The embedding below translates the `HandDetector` session state and its
per-tick `process` method into pure Lean functions.  Times and normalized
coordinates are rationals; the mutable session fields of the Python class
become a `DetectorState` record threaded through `process`.  One call to
`process` models one tick: the camera read (`ret`), the list of hands the
landmark collaborator returned, and the two `time.time()` calls of that
tick (`tSample`, taken at the history append on line 117, and `now`, taken
on line 121) are the tick's inputs.  Python's `if results.multi_hand_landmarks:`
is false exactly when the hand list is `None` or empty; both are modelled
by an empty `hands` list.
-/

/-- One mediapipe landmark: normalized x, y and relative depth z. -/
structure Point where
  x : ℚ
  y : ℚ
  z : ℚ
deriving DecidableEq

/-- A detected hand: its ordered landmark list (21 points in practice). -/
structure Hand where
  landmark : List Point
deriving DecidableEq

/-- `h.landmark[i]` of the Python code. -/
def lmAt (h : Hand) (i : ℕ) : Point := h.landmark.getD i ⟨0, 0, 0⟩

/-- One motion sample `(time.time(), wrist.x, wrist.y)` as appended on
line 117 of `detector.py`. -/
structure Sample where
  t : ℚ
  x : ℚ
  y : ℚ
deriving DecidableEq

/-- The `Gesture` dataclass of `detector.py`: a type tag plus the two
optional payload fields. -/
structure Gesture where
  type : String
  fingers : Option ℕ
  delta : Option ℚ
deriving DecidableEq

/-- The mutable session state of `HandDetector`: `self.history`,
`self.last_finger_time`, `self.scroll_mode`, `self._activation_time`,
`self._scroll_ref_y`.  The history list holds the deque left-to-right, so
its head is `history[0]` (oldest) and its last element is `history[-1]`
(newest). -/
structure DetectorState where
  history : List Sample
  last_finger_time : ℚ
  scroll_mode : Bool
  activation_time : ℚ
  scroll_ref_y : Option ℚ
deriving DecidableEq

/-- The external inputs of one `process` call. -/
structure Tick where
  ret : Bool
  hands : List Hand
  tSample : ℚ
  now : ℚ

/-- State after `HandDetector.__init__`. -/
def initState : DetectorState := ⟨[], 0, false, 0, none⟩

/-- `HandDetector._count_fingers` (lines 43-59): orientation-aware thumb
test on landmarks 4/2 against 5/17, then `tip.y < pip.y` for the tip/pip
pairs (8,6), (12,10), (16,14), (20,18). -/
def countFingers (h : Hand) : ℕ :=
  let thumb : ℕ :=
    if (lmAt h 5).x < (lmAt h 17).x then
      if (lmAt h 4).x > (lmAt h 2).x then 1 else 0
    else
      if (lmAt h 4).x < (lmAt h 2).x then 1 else 0
  let others : ℕ :=
    (if (lmAt h 8).y < (lmAt h 6).y then 1 else 0) +
    (if (lmAt h 12).y < (lmAt h 10).y then 1 else 0) +
    (if (lmAt h 16).y < (lmAt h 14).y then 1 else 0) +
    (if (lmAt h 20).y < (lmAt h 18).y then 1 else 0)
  thumb + others

/-- `dt = t1 - t0` of `_detect_swipe`: newest minus oldest timestamp. -/
def swipeDt (history : List Sample) : ℚ :=
  (history.getLastD ⟨0, 0, 0⟩).t - (history.headD ⟨0, 0, 0⟩).t

/-- `vx = (x1 - x0) / dt` of `_detect_swipe`. -/
def swipeVx (history : List Sample) : ℚ :=
  ((history.getLastD ⟨0, 0, 0⟩).x - (history.headD ⟨0, 0, 0⟩).x) / swipeDt history

/-- `vy = (y1 - y0) / dt` of `_detect_swipe`. -/
def swipeVy (history : List Sample) : ℚ :=
  ((history.getLastD ⟨0, 0, 0⟩).y - (history.headD ⟨0, 0, 0⟩).y) / swipeDt history

/-- `HandDetector._detect_swipe` (lines 61-83).  Returns the classified
swipe kind (if any) together with the history after the call, since the
Python method clears `self.history` on a match. -/
def detectSwipe (history : List Sample) : Option String × List Sample :=
  if history.length < 2 then (none, history)
  else if swipeDt history = 0 then (none, history)
  else if swipeVx history > 1 ∧ abs (swipeVy history) < 4/5 then
    (some "swipe_right", [])
  else if swipeVy history < -1 ∧ abs (swipeVx history) < 4/5 then
    (some "swipe_up", [])
  else if swipeVy history > 1 ∧ abs (swipeVx history) < 4/5 then
    (some "swipe_down", [])
  else (none, history)

/-- Bounding-box area `(max(xs) - min(xs)) * (max(ys) - min(ys))` over the
landmark list (lines 89-91).  Folding from the head of the coordinate list
equals Python's `max`/`min` over the whole list. -/
def handArea (h : Hand) : ℚ :=
  let xs := h.landmark.map Point.x
  let ys := h.landmark.map Point.y
  (xs.foldl max (xs.headD 0) - xs.foldl min (xs.headD 0)) *
    (ys.foldl max (ys.headD 0) - ys.foldl min (ys.headD 0))

/-- Loop body of `_select_closest_hand` (lines 88-94): the accumulator is
`(best, best_area)` and is replaced only on a strictly larger area. -/
def selStep (acc : Option Hand × ℚ) (lm : Hand) : Option Hand × ℚ :=
  if handArea lm > acc.2 then (some lm, handArea lm) else acc

/-- `HandDetector._select_closest_hand` (lines 85-95). -/
def selectClosestHand (hands : List Hand) : Option Hand :=
  let r := hands.foldl selStep ((none : Option Hand), (0 : ℚ))
  if r.2 ≥ 1/20 then r.1 else none

/-- `HandDetector._is_pointing_at_camera` (lines 97-100). -/
def isPointingAtCamera (h : Hand) : Bool :=
  decide ((lmAt h 8).z < (lmAt h 7).z - 1/50)

/-- `self.history.append(...)` on a deque with `maxlen=5` (lines 33, 117):
append on the right, evict from the left when over capacity. -/
def pushSample (history : List Sample) (s : Sample) : List Sample :=
  let l := history ++ [s]
  if 5 < l.length then l.drop (l.length - 5) else l

/-- The sample appended on line 117: `(time.time(), wrist.x, wrist.y)`
with `wrist = hand.landmark[0]`. -/
def wristSample (tk : Tick) (h : Hand) : Sample :=
  ⟨tk.tSample, (lmAt h 0).x, (lmAt h 0).y⟩

/-- `self.history.clear()` on the no-hand branches (lines 155, 157). -/
def clearHistory (st : DetectorState) : DetectorState :=
  ⟨[], st.last_finger_time, st.scroll_mode, st.activation_time, st.scroll_ref_y⟩

/-- Lines 123-146 of `process`: the scroll-mode branch and, otherwise, the
arming / scroll-entry / finger-count chain.  `history1` is the history
after the line-117 append; every state component the Python code does not
assign is passed through unchanged. -/
def modeStep (st : DetectorState) (hand : Hand) (now : ℚ) (history1 : List Sample) :
    DetectorState × Option Gesture :=
  if st.scroll_mode then
    if countFingers hand = 1 ∧ isPointingAtCamera hand = true then
      (⟨history1, st.last_finger_time, st.scroll_mode, st.activation_time,
         some ((lmAt hand 8).y)⟩,
        some ⟨"scroll", none,
          some (st.scroll_ref_y.getD ((lmAt hand 8).y) - (lmAt hand 8).y)⟩)
    else
      (⟨history1, st.last_finger_time, false, st.activation_time, none⟩, none)
  else
    if countFingers hand = 5 then
      (⟨history1, st.last_finger_time, st.scroll_mode, now, st.scroll_ref_y⟩, none)
    else if countFingers hand = 1 ∧ now - st.activation_time < 3/2 ∧
        isPointingAtCamera hand = true then
      (⟨history1, st.last_finger_time, true, st.activation_time,
         some ((lmAt hand 8).y)⟩, none)
    else if countFingers hand ≠ 0 ∧ now - st.last_finger_time > 1/2 then
      (⟨history1, now, st.scroll_mode, st.activation_time, st.scroll_ref_y⟩,
        some ⟨"fingers", some (countFingers hand), none⟩)
    else
      (⟨history1, st.last_finger_time, st.scroll_mode, st.activation_time, st.scroll_ref_y⟩,
        none)

/-- Lines 148-152 of `process`: swipe classification runs only when
`scroll_mode` is false *after* `modeStep`, and its result overwrites the
tick's gesture slot. -/
def swipeStep (st : DetectorState) (g : Option Gesture) :
    DetectorState × Option Gesture :=
  if st.scroll_mode then (st, g)
  else
    let sw := detectSwipe st.history
    let st2 : DetectorState :=
      ⟨sw.2, st.last_finger_time, st.scroll_mode, st.activation_time, st.scroll_ref_y⟩
    match sw.1 with
    | some s => (st2, some ⟨s, none, none⟩)
    | none => (st2, g)

/-- `HandDetector.process` (lines 102-159).  Returns the new session
state, the gesture of the tick, and `some ()` when a frame is returned
(`(none, none)` on a failed camera read). -/
def process (st : DetectorState) (tk : Tick) :
    DetectorState × Option Gesture × Option Unit :=
  if tk.ret = false then (st, none, none)
  else if tk.hands.isEmpty then (clearHistory st, none, some ())
  else
    match selectClosestHand tk.hands with
    | none => (clearHistory st, none, some ())
    | some hand =>
        let r := modeStep st hand tk.now (pushSample st.history (wristSample tk hand))
        let r2 := swipeStep r.1 r.2
        (r2.1, r2.2, some ())

/-- Sequential ticks of one session. -/
def runTicks (st : DetectorState) : List Tick → DetectorState
  | [] => st
  | tk :: rest => runTicks (process st tk).1 rest

/-! ### Concrete hands used in counterexamples and witnesses

Landmark lists are written out in index order 0..20; only indices
0, 2, 4, 5, 6, 7, 8, 10, 12, 14, 16, 17, 18, 20 are read by the core.
Each hand spans the full normalized frame, so its bounding-box area is 1
and it always passes the 0.05 selection threshold. -/

/-- Filler landmark at the frame centre. -/
def pMid : Point := ⟨1/2, 1/2, 0⟩

/-- A hand with all five fingers counted as extended, wrist at `w`. -/
def fiveHandW (w : Point) : Hand := ⟨[
  w, pMid, ⟨1/2, 1/2, 0⟩, pMid, ⟨9/10, 1/2, 0⟩,
  ⟨0, 1/2, 0⟩, ⟨1/2, 1, 0⟩, pMid, ⟨1/2, 0, 0⟩, pMid,
  ⟨1/2, 1, 0⟩, pMid, ⟨1/2, 0, 0⟩, pMid, ⟨1/2, 1, 0⟩,
  pMid, ⟨1/2, 0, 0⟩, ⟨1, 1/2, 0⟩, ⟨1/2, 1, 0⟩, pMid, ⟨1/2, 0, 0⟩]⟩

/-- A one-finger pointing hand: only the index is extended and its tip is
more than `0.02` closer to the camera than its DIP joint. -/
def pointHandW (w : Point) : Hand := ⟨[
  w, pMid, ⟨1/2, 1/2, 0⟩, pMid, ⟨1/4, 1/2, 0⟩,
  ⟨0, 1/2, 0⟩, ⟨1/2, 1/2, 0⟩, ⟨1/2, 1/4, 0⟩, ⟨1/2, 0, -1/10⟩, pMid,
  ⟨1/2, 1, 0⟩, pMid, ⟨1/2, 1, 0⟩, pMid, ⟨1/2, 1, 0⟩,
  pMid, ⟨1/2, 1, 0⟩, ⟨1, 1/2, 0⟩, ⟨1/2, 1, 0⟩, pMid, ⟨1/2, 1, 0⟩]⟩

/-- A fully folded hand: zero extended fingers. -/
def foldHandW (w : Point) : Hand := ⟨[
  w, pMid, ⟨1/2, 1/2, 0⟩, pMid, ⟨1/4, 1/2, 0⟩,
  ⟨0, 1/2, 0⟩, ⟨1/2, 0, 0⟩, pMid, ⟨1/2, 1, 0⟩, pMid,
  ⟨1/2, 0, 0⟩, pMid, ⟨1/2, 1, 0⟩, pMid, ⟨1/2, 0, 0⟩,
  pMid, ⟨1/2, 1, 0⟩, ⟨1, 1/2, 0⟩, ⟨1/2, 0, 0⟩, pMid, ⟨1/2, 1, 0⟩]⟩

/-- A hand with index, middle and ring extended: count 3. -/
def threeHandW (w : Point) : Hand := ⟨[
  w, pMid, ⟨1/2, 1/2, 0⟩, pMid, ⟨1/4, 1/2, 0⟩,
  ⟨0, 1/2, 0⟩, ⟨1/2, 1, 0⟩, pMid, ⟨1/2, 0, 0⟩, pMid,
  ⟨1/2, 1, 0⟩, pMid, ⟨1/2, 0, 0⟩, pMid, ⟨1/2, 1, 0⟩,
  pMid, ⟨1/2, 0, 0⟩, ⟨1, 1/2, 0⟩, ⟨1/2, 1/2, 0⟩, pMid, ⟨1/2, 1, 0⟩]⟩

/-- A degenerate hand whose 21 landmarks coincide: bounding-box area 0. -/
def tinyHand : Hand := ⟨[
  pMid, pMid, pMid, pMid, pMid, pMid, pMid, pMid, pMid, pMid, pMid,
  pMid, pMid, pMid, pMid, pMid, pMid, pMid, pMid, pMid, pMid]⟩

/-- A successful tick showing exactly the given hands at time `t` (both
`time.time()` calls of the tick return `t`). -/
def mkTick (hands : List Hand) (t : ℚ) : Tick := ⟨true, hands, t, t⟩

/-! ### Helper lemmas -/

lemma isEmpty_false_of_select {hands : List Hand} {h : Hand}
    (hsel : selectClosestHand hands = some h) : hands.isEmpty = false := by
  cases hands with
  | nil => simp [selectClosestHand] at hsel
  | cons a l => rfl

/-- `processHand st tk h`: what `process` computes after a hand `h` has
been selected (lines 114-152), as the (state, gesture) pair. -/
def processHand (st : DetectorState) (tk : Tick) (hand : Hand) :
    DetectorState × Option Gesture :=
  let r := modeStep st hand tk.now (pushSample st.history (wristSample tk hand))
  swipeStep r.1 r.2

lemma process_some (st : DetectorState) (tk : Tick) (h : Hand)
    (hret : tk.ret = true) (hsel : selectClosestHand tk.hands = some h) :
    process st tk = ((processHand st tk h).1, (processHand st tk h).2, some ()) := by
  unfold process processHand
  rw [hret, isEmpty_false_of_select hsel, hsel]
  simp

lemma detectSwipe_none_snd {l : List Sample} (h : (detectSwipe l).1 = none) :
    (detectSwipe l).2 = l := by
  unfold detectSwipe at *
  split_ifs at * <;> simp_all

lemma swipeStep_active (st : DetectorState) (g : Option Gesture)
    (hsm : st.scroll_mode = true) : swipeStep st g = (st, g) := by
  unfold swipeStep
  rw [hsm]
  simp

lemma swipeStep_no_match (st : DetectorState) (g : Option Gesture)
    (hsm : st.scroll_mode = false) (hsw : (detectSwipe st.history).1 = none) :
    swipeStep st g = (st, g) := by
  unfold swipeStep
  rw [if_neg (by rw [hsm]; simp)]
  simp only [hsw, detectSwipe_none_snd hsw]

lemma swipeStep_match (st : DetectorState) (g : Option Gesture) (s : String)
    (hsm : st.scroll_mode = false) (hsw : (detectSwipe st.history).1 = some s) :
    swipeStep st g =
      (⟨(detectSwipe st.history).2, st.last_finger_time, st.scroll_mode,
         st.activation_time, st.scroll_ref_y⟩, some ⟨s, none, none⟩) := by
  unfold swipeStep
  rw [if_neg (by rw [hsm]; simp)]
  simp only [hsw]

lemma modeStep_five (st : DetectorState) (hand : Hand) (now : ℚ) (history1 : List Sample)
    (hsm : st.scroll_mode = false) (h5 : countFingers hand = 5) :
    modeStep st hand now history1 =
      (⟨history1, st.last_finger_time, st.scroll_mode, now, st.scroll_ref_y⟩, none) := by
  unfold modeStep
  rw [if_neg (by rw [hsm]; simp), if_pos h5]

lemma modeStep_enter (st : DetectorState) (hand : Hand) (now : ℚ) (history1 : List Sample)
    (hsm : st.scroll_mode = false) (hg : countFingers hand = 1)
    (hw : now - st.activation_time < 3/2) (hp : isPointingAtCamera hand = true) :
    modeStep st hand now history1 =
      (⟨history1, st.last_finger_time, true, st.activation_time,
         some ((lmAt hand 8).y)⟩, none) := by
  unfold modeStep
  rw [if_neg (by rw [hsm]; simp), if_neg (by rw [hg]; simp), if_pos ⟨hg, hw, hp⟩]

lemma modeStep_fingers_event (st : DetectorState) (hand : Hand) (now : ℚ)
    (history1 : List Sample)
    (hsm : st.scroll_mode = false) (h5 : countFingers hand ≠ 5)
    (hng : ¬(countFingers hand = 1 ∧ now - st.activation_time < 3/2 ∧
              isPointingAtCamera hand = true))
    (hnz : countFingers hand ≠ 0) (hdeb : now - st.last_finger_time > 1/2) :
    modeStep st hand now history1 =
      (⟨history1, now, st.scroll_mode, st.activation_time, st.scroll_ref_y⟩,
        some ⟨"fingers", some (countFingers hand), none⟩) := by
  unfold modeStep
  rw [if_neg (by rw [hsm]; simp), if_neg h5, if_neg hng, if_pos ⟨hnz, hdeb⟩]

lemma modeStep_idle_silent (st : DetectorState) (hand : Hand) (now : ℚ)
    (history1 : List Sample)
    (hsm : st.scroll_mode = false) (h5 : countFingers hand ≠ 5)
    (hng : ¬(countFingers hand = 1 ∧ now - st.activation_time < 3/2 ∧
              isPointingAtCamera hand = true))
    (hnof : ¬(countFingers hand ≠ 0 ∧ now - st.last_finger_time > 1/2)) :
    modeStep st hand now history1 =
      (⟨history1, st.last_finger_time, st.scroll_mode, st.activation_time,
         st.scroll_ref_y⟩, none) := by
  unfold modeStep
  rw [if_neg (by rw [hsm]; simp), if_neg h5, if_neg hng, if_neg hnof]

lemma modeStep_scroll_loop (st : DetectorState) (hand : Hand) (now : ℚ)
    (history1 : List Sample)
    (hsm : st.scroll_mode = true) (hg : countFingers hand = 1)
    (hp : isPointingAtCamera hand = true) :
    modeStep st hand now history1 =
      (⟨history1, st.last_finger_time, st.scroll_mode, st.activation_time,
         some ((lmAt hand 8).y)⟩,
        some ⟨"scroll", none,
          some (st.scroll_ref_y.getD ((lmAt hand 8).y) - (lmAt hand 8).y)⟩) := by
  unfold modeStep
  rw [if_pos (by rw [hsm]), if_pos ⟨hg, hp⟩]

lemma modeStep_scroll_exit (st : DetectorState) (hand : Hand) (now : ℚ)
    (history1 : List Sample)
    (hsm : st.scroll_mode = true)
    (hng : ¬(countFingers hand = 1 ∧ isPointingAtCamera hand = true)) :
    modeStep st hand now history1 =
      (⟨history1, st.last_finger_time, false, st.activation_time, none⟩, none) := by
  unfold modeStep
  rw [if_pos (by rw [hsm]), if_neg hng]

/-! ### Claims -/

/-- C10: On a failed camera frame read, `process` returns
`(None, None)` and leaves the whole session state unchanged: the motion
history is not cleared, and `scroll_mode`, the activation time, the scroll
reference and the fingers debounce watermark keep their previous values
(lines 103-105 return before any state mutation). -/
theorem C10_failed_read_preserves_state (st : DetectorState) (tk : Tick)
    (h : tk.ret = false) : process st tk = (st, none, none) := by
  unfold process
  rw [h]
  simp

theorem C10_failed_read_preserves_state_witness :
    process ⟨[⟨0, 1/4, 1/3⟩], 1, true, 2, some 3⟩ ⟨false, [tinyHand], 4, 5⟩ =
      (⟨[⟨0, 1/4, 1/3⟩], 1, true, 2, some 3⟩, none, none) :=
  C10_failed_read_preserves_state _ _ rfl

lemma selStep_fold (l : List Hand) : ∀ (b : Option Hand) (a : ℚ),
    (l.foldl selStep (b, a) = (b, a) ∧ ∀ h2 ∈ l, handArea h2 ≤ a) ∨
    (∃ l1 h l2, l = l1 ++ h :: l2 ∧
       l.foldl selStep (b, a) = (some h, handArea h) ∧ a < handArea h ∧
       (∀ h2 ∈ l1, handArea h2 < handArea h) ∧
       (∀ h2 ∈ l2, handArea h2 ≤ handArea h)) := by
  induction l with
  | nil =>
    intro b a
    left
    exact ⟨rfl, by simp⟩
  | cons x xs ih =>
    intro b a
    rw [List.foldl_cons]
    by_cases hx : handArea x > a
    · have hstep : selStep (b, a) x = (some x, handArea x) := by
        unfold selStep
        rw [if_pos hx]
      rw [hstep]
      rcases ih (some x) (handArea x) with ⟨heq, hall⟩ | ⟨l1, h, l2, hsplit, heq, hlt, hl1, hl2⟩
      · right
        exact ⟨[], x, xs, by simp, heq, hx, by simp, hall⟩
      · right
        refine ⟨x :: l1, h, l2, by rw [hsplit, List.cons_append], heq, lt_trans hx hlt, ?_, hl2⟩
        intro h2 hh2
        rcases List.mem_cons.mp hh2 with rfl | hh2
        · exact hlt
        · exact hl1 h2 hh2
    · push_neg at hx
      have hstep : selStep (b, a) x = (b, a) := by
        unfold selStep
        rw [if_neg (not_lt.mpr hx)]
      rw [hstep]
      rcases ih b a with ⟨heq, hall⟩ | ⟨l1, h, l2, hsplit, heq, hlt, hl1, hl2⟩
      · left
        refine ⟨heq, ?_⟩
        intro h2 hh2
        rcases List.mem_cons.mp hh2 with rfl | hh2
        · exact hx
        · exact hall h2 hh2
      · right
        refine ⟨x :: l1, h, l2, by rw [hsplit, List.cons_append], heq, hlt, ?_, hl2⟩
        intro h2 hh2
        rcases List.mem_cons.mp hh2 with rfl | hh2
        · exact lt_of_le_of_lt hx hlt
        · exact hl1 h2 hh2

/-- C7: The hand selector returns a hand of maximal bounding-box area
that passes the `0.05` threshold; when all candidates (possibly none) are
below the threshold it returns no selection; ties are broken in favour of
the first hand encountered (every candidate before the returned one has
strictly smaller area). -/
theorem C7_hand_selector (hands : List Hand) :
    (∀ h, selectClosestHand hands = some h →
        h ∈ hands ∧ 1/20 ≤ handArea h ∧ (∀ h2 ∈ hands, handArea h2 ≤ handArea h) ∧
        ∃ l1 l2, hands = l1 ++ h :: l2 ∧ ∀ h2 ∈ l1, handArea h2 < handArea h) ∧
    ((∀ h2 ∈ hands, handArea h2 < 1/20) → selectClosestHand hands = none) := by
  constructor
  · intro h hsel
    unfold selectClosestHand at hsel
    rcases selStep_fold hands none 0 with ⟨heq, _⟩ | ⟨l1, h0, l2, hsplit, heq, _, hl1, hl2⟩
    · rw [heq] at hsel
      norm_num at hsel
      exact Option.noConfusion hsel
    · rw [heq] at hsel
      by_cases hge : (handArea h0 ≥ 1/20)
      · rw [if_pos hge] at hsel
        simp only [Option.some.injEq] at hsel
        subst hsel
        refine ⟨by rw [hsplit]; simp, hge, ?_, l1, l2, hsplit, hl1⟩
        intro h2 hh2
        rw [hsplit] at hh2
        rcases List.mem_append.mp hh2 with hh2 | hh2
        · exact le_of_lt (hl1 h2 hh2)
        · rcases List.mem_cons.mp hh2 with rfl | hh2
          · exact le_refl _
          · exact hl2 h2 hh2
      · rw [if_neg hge] at hsel
        exact absurd hsel (by simp)
  · intro hall
    unfold selectClosestHand
    rcases selStep_fold hands none 0 with ⟨heq, _⟩ | ⟨l1, h0, l2, hsplit, heq, _, _, _⟩
    · rw [heq]
      norm_num
    · rw [heq]
      have hlt : handArea h0 < 1/20 := hall h0 (by rw [hsplit]; simp)
      rw [if_neg (not_le.mpr hlt)]

theorem C7_hand_selector_witness : selectClosestHand [tinyHand] = none :=
  (C7_hand_selector [tinyHand]).2 (by
    intro h2 hh2
    simp only [List.mem_singleton] at hh2
    subst hh2
    norm_num [handArea, tinyHand, pMid, max_def, min_def])

/-- C6: With at least two samples, `_detect_swipe` uses the oldest and
newest samples only; equal timestamps yield no decision (the division is
never reached); otherwise the three threshold tests are tried in priority
order with the first match winning, the history is cleared exactly on a
match and retained on no match. -/
theorem C6_swipe_classifier (history : List Sample) (hlen : 2 ≤ history.length) :
    (swipeDt history = 0 → detectSwipe history = (none, history)) ∧
    (swipeDt history ≠ 0 →
      ((detectSwipe history).1 ≠ none → (detectSwipe history).2 = []) ∧
      ((detectSwipe history).1 = none → (detectSwipe history).2 = history) ∧
      ((detectSwipe history).1 = some "swipe_right" ↔
        swipeVx history > 1 ∧ abs (swipeVy history) < 4/5) ∧
      ((detectSwipe history).1 = some "swipe_up" ↔
        ¬(swipeVx history > 1 ∧ abs (swipeVy history) < 4/5) ∧
        swipeVy history < -1 ∧ abs (swipeVx history) < 4/5) ∧
      ((detectSwipe history).1 = some "swipe_down" ↔
        ¬(swipeVx history > 1 ∧ abs (swipeVy history) < 4/5) ∧
        ¬(swipeVy history < -1 ∧ abs (swipeVx history) < 4/5) ∧
        swipeVy history > 1 ∧ abs (swipeVx history) < 4/5) ∧
      ((detectSwipe history).1 = none ↔
        ¬(swipeVx history > 1 ∧ abs (swipeVy history) < 4/5) ∧
        ¬(swipeVy history < -1 ∧ abs (swipeVx history) < 4/5) ∧
        ¬(swipeVy history > 1 ∧ abs (swipeVx history) < 4/5))) := by
  have hnl : ¬(history.length < 2) := not_lt.mpr hlen
  unfold detectSwipe
  rw [if_neg hnl]
  constructor
  · intro h0
    rw [if_pos h0]
  · intro h0
    rw [if_neg h0]
    split_ifs with h1 h2 h3 <;> simp_all

theorem C6_swipe_classifier_witness :
    (detectSwipe [(⟨0, 0, 0⟩ : Sample), ⟨1, 2, 0⟩]).1 = some "swipe_right" ∧
    (detectSwipe [(⟨0, 0, 0⟩ : Sample), ⟨1, 2, 0⟩]).2 = [] := by
  have h := C6_swipe_classifier [⟨0, 0, 0⟩, ⟨1, 2, 0⟩] (by norm_num)
  have hdt : swipeDt [(⟨0, 0, 0⟩ : Sample), ⟨1, 2, 0⟩] ≠ 0 := by
    norm_num [swipeDt]
  have h2 := h.2 hdt
  have hr : (detectSwipe [(⟨0, 0, 0⟩ : Sample), ⟨1, 2, 0⟩]).1 = some "swipe_right" :=
    (h2.2.2.1).mpr (by norm_num [swipeVx, swipeVy, swipeDt])
  exact ⟨hr, h2.1 (by rw [hr]; simp)⟩

/-- C5: The `Armed`-to-`Active` transition tick (one finger, pointing,
within the 1.5 s window) emits no event and stores the index fingertip's y
as the scroll reference; every later tick taken in scroll mode whose guard
holds emits a `scroll` event with delta = stored reference minus current
index-tip y and updates the reference to the current y. -/
theorem C5_scroll_transition_and_delta :
    (∀ st tk h, tk.ret = true → selectClosestHand tk.hands = some h →
      st.scroll_mode = false → countFingers h = 1 →
      tk.now - st.activation_time < 3/2 → isPointingAtCamera h = true →
      (process st tk).2.1 = none ∧ (process st tk).1.scroll_mode = true ∧
      (process st tk).1.scroll_ref_y = some ((lmAt h 8).y)) ∧
    (∀ st tk h r, tk.ret = true → selectClosestHand tk.hands = some h →
      st.scroll_mode = true → st.scroll_ref_y = some r → countFingers h = 1 →
      isPointingAtCamera h = true →
      (process st tk).2.1 = some ⟨"scroll", none, some (r - (lmAt h 8).y)⟩ ∧
      (process st tk).1.scroll_ref_y = some ((lmAt h 8).y) ∧
      (process st tk).1.scroll_mode = true) := by
  constructor
  · intro st tk h hret hsel hsm hg hw hp
    rw [process_some st tk h hret hsel]
    simp only [processHand]
    rw [modeStep_enter st h tk.now (pushSample st.history (wristSample tk h)) hsm hg hw hp]
    rw [swipeStep_active _ _ rfl]
    exact ⟨rfl, rfl, rfl⟩
  · intro st tk h r hret hsel hsm href hg hp
    rw [process_some st tk h hret hsel]
    simp only [processHand]
    rw [modeStep_scroll_loop st h tk.now (pushSample st.history (wristSample tk h)) hsm hg hp]
    rw [swipeStep_active _ _ (by rw [hsm])]
    refine ⟨?_, rfl, by rw [hsm]⟩
    rw [href]
    rfl

theorem C5_scroll_transition_and_delta_witness :
    (process initState (mkTick [pointHandW pMid] 1)).2.1 = none ∧
    (process initState (mkTick [pointHandW pMid] 1)).1.scroll_mode = true ∧
    (process initState (mkTick [pointHandW pMid] 1)).1.scroll_ref_y =
      some ((lmAt (pointHandW pMid) 8).y) :=
  C5_scroll_transition_and_delta.1 initState (mkTick [pointHandW pMid] 1)
    (pointHandW pMid) rfl
    (by norm_num [selectClosestHand, selStep, handArea, pointHandW, pMid, mkTick,
      max_def, min_def])
    rfl
    (by norm_num [countFingers, lmAt, pointHandW, pMid])
    (by norm_num [mkTick, initState])
    (by norm_num [isPointingAtCamera, lmAt, pointHandW, pMid, decide_eq_true_eq])

lemma swipeStep_fields (st : DetectorState) (g : Option Gesture) :
    (swipeStep st g).1.scroll_mode = st.scroll_mode ∧
    (swipeStep st g).1.activation_time = st.activation_time ∧
    (swipeStep st g).1.last_finger_time = st.last_finger_time ∧
    (swipeStep st g).1.scroll_ref_y = st.scroll_ref_y := by
  unfold swipeStep
  split
  · exact ⟨rfl, rfl, rfl, rfl⟩
  · cases hsw : (detectSwipe st.history).1 <;> simp [hsw]

lemma modeStep_idle_keeps (st : DetectorState) (hand : Hand) (now : ℚ)
    (history1 : List Sample)
    (hsm : st.scroll_mode = false) (h5 : countFingers hand ≠ 5)
    (hng : ¬(countFingers hand = 1 ∧ now - st.activation_time < 3/2 ∧
              isPointingAtCamera hand = true)) :
    (modeStep st hand now history1).1.scroll_mode = st.scroll_mode ∧
    (modeStep st hand now history1).1.activation_time = st.activation_time := by
  by_cases hfire : countFingers hand ≠ 0 ∧ now - st.last_finger_time > 1/2
  · rw [modeStep_fingers_event st hand now history1 hsm h5 hng hfire.1 hfire.2]
    exact ⟨rfl, rfl⟩
  · rw [modeStep_idle_silent st hand now history1 hsm h5 hng hfire]
    exact ⟨rfl, rfl⟩

/-- C1 counterexample: A five-finger posture held continuously from
t = 0 s to t = 2 s (observed on ticks at 0, 1 and 2) followed by a
one-finger pointing tick at t = 2.1 s *does* enter scroll mode: every
five-finger tick refreshes `_activation_time` (line 138), so the 1.5 s
window is measured from the *last* five-finger observation, not from the
start of the hold, contradicting the claim that such a sequence can never
enter `Active`. -/
theorem C1_counterexample :
    (runTicks initState
      [mkTick [fiveHandW pMid] 0, mkTick [fiveHandW pMid] 1,
       mkTick [fiveHandW pMid] 2, mkTick [pointHandW pMid] (21/10)]).scroll_mode
      = true := by
  norm_num [runTicks, process, modeStep, swipeStep, detectSwipe, swipeDt, swipeVx, swipeVy,
    selectClosestHand, selStep, handArea, countFingers, isPointingAtCamera, pushSample,
    wristSample, initState, mkTick, fiveHandW, pointHandW, pMid, lmAt, max_def, min_def]

/-- C1 amended: What the code guarantees: the arming window is
measured from the most recent five-finger observation.  A one-finger
pointing tick taken at least 1.5 s after `_activation_time` does not enter
scroll mode and falls through to posture/swipe classification, emitting a
`fingers` event with count 1 when the 0.5 s debounce has elapsed and no
swipe fires. -/
theorem C1_expired_window_amended (st : DetectorState) (tk : Tick) (h : Hand)
    (hret : tk.ret = true) (hsel : selectClosestHand tk.hands = some h)
    (hsm : st.scroll_mode = false)
    (hg : countFingers h = 1) (hp : isPointingAtCamera h = true)
    (hw : 3/2 ≤ tk.now - st.activation_time) :
    (process st tk).1.scroll_mode = false ∧
    (tk.now - st.last_finger_time > 1/2 →
      (detectSwipe (pushSample st.history (wristSample tk h))).1 = none →
      (process st tk).2.1 = some ⟨"fingers", some 1, none⟩) := by
  have h5 : countFingers h ≠ 5 := by rw [hg]; norm_num
  have hng : ¬(countFingers h = 1 ∧ tk.now - st.activation_time < 3/2 ∧
      isPointingAtCamera h = true) := by
    rintro ⟨-, hlt, -⟩
    exact absurd hlt (not_lt.mpr hw)
  constructor
  · have hM := modeStep_idle_keeps st h tk.now
      (pushSample st.history (wristSample tk h)) hsm h5 hng
    have hS := swipeStep_fields
      (modeStep st h tk.now (pushSample st.history (wristSample tk h))).1
      (modeStep st h tk.now (pushSample st.history (wristSample tk h))).2
    rw [process_some st tk h hret hsel]
    simp only [processHand]
    rw [hS.1, hM.1, hsm]
  · intro hdeb hnosw
    rw [process_some st tk h hret hsel]
    simp only [processHand]
    rw [modeStep_fingers_event st h tk.now
      (pushSample st.history (wristSample tk h)) hsm h5 hng (by rw [hg]; norm_num) hdeb]
    rw [swipeStep_no_match
      ⟨pushSample st.history (wristSample tk h), tk.now, st.scroll_mode,
        st.activation_time, st.scroll_ref_y⟩
      (some ⟨"fingers", some (countFingers h), none⟩) hsm hnosw]
    simp [hg]

theorem C1_expired_window_amended_witness :
    (process initState (mkTick [pointHandW pMid] 2)).1.scroll_mode = false ∧
    (process initState (mkTick [pointHandW pMid] 2)).2.1 =
      some ⟨"fingers", some 1, none⟩ := by
  have h := C1_expired_window_amended initState (mkTick [pointHandW pMid] 2)
    (pointHandW pMid) rfl
    (by norm_num [selectClosestHand, selStep, handArea, pointHandW, pMid, mkTick,
      max_def, min_def])
    rfl
    (by norm_num [countFingers, lmAt, pointHandW, pMid])
    (by norm_num [isPointingAtCamera, lmAt, pointHandW, pMid, decide_eq_true_eq])
    (by norm_num [mkTick, initState])
  exact ⟨h.1, h.2 (by norm_num [mkTick, initState]) rfl⟩

/-- C2 counterexample: `_activation_time` is never invalidated:
five fingers at t = 0, a folded hand (0 fingers, guard false, count ≠ 5)
at t = 0.5, then one finger pointing at t = 1 — the machine still enters
scroll mode although no fresh five-finger observation occurred after the
intervening tick, contradicting the claimed Armed→Idle staleness. -/
theorem C2_counterexample :
    (runTicks initState
      [mkTick [fiveHandW pMid] 0, mkTick [foldHandW pMid] (1/2),
       mkTick [pointHandW pMid] 1]).scroll_mode = true := by
  norm_num [runTicks, process, modeStep, swipeStep, detectSwipe, swipeDt, swipeVx, swipeVy,
    selectClosestHand, selStep, handArea, countFingers, isPointingAtCamera, pushSample,
    wristSample, initState, mkTick, fiveHandW, foldHandW, pointHandW, pMid, lmAt,
    max_def, min_def]

/-- C2 amended: What the code does: a non-scroll tick whose
scroll-entry guard is false and whose finger count is not 5 leaves
`_activation_time` unchanged and stays out of scroll mode (there is no
Idle/Armed distinction in the state), and a later one-finger pointing tick
still enters scroll mode whenever it arrives within 1.5 s of the original
`_activation_time`, with no fresh five-finger observation in between. -/
theorem C2_armed_at_not_stale_amended (st : DetectorState) (tkA tkB : Tick)
    (hA hB : Hand)
    (hretA : tkA.ret = true) (hselA : selectClosestHand tkA.hands = some hA)
    (hsm : st.scroll_mode = false)
    (h5A : countFingers hA ≠ 5)
    (hngA : ¬(countFingers hA = 1 ∧ tkA.now - st.activation_time < 3/2 ∧
              isPointingAtCamera hA = true))
    (hretB : tkB.ret = true) (hselB : selectClosestHand tkB.hands = some hB)
    (hgB : countFingers hB = 1) (hpB : isPointingAtCamera hB = true)
    (hwB : tkB.now - st.activation_time < 3/2) :
    (process st tkA).1.activation_time = st.activation_time ∧
    (process st tkA).1.scroll_mode = false ∧
    (process (process st tkA).1 tkB).1.scroll_mode = true := by
  have hM := modeStep_idle_keeps st hA tkA.now
    (pushSample st.history (wristSample tkA hA)) hsm h5A hngA
  have hS := swipeStep_fields
    (modeStep st hA tkA.now (pushSample st.history (wristSample tkA hA))).1
    (modeStep st hA tkA.now (pushSample st.history (wristSample tkA hA))).2
  have h2 : (process st tkA).1.activation_time = st.activation_time := by
    rw [process_some st tkA hA hretA hselA]
    simp only [processHand]
    rw [hS.2.1, hM.2]
  have h1 : (process st tkA).1.scroll_mode = false := by
    rw [process_some st tkA hA hretA hselA]
    simp only [processHand]
    rw [hS.1, hM.1, hsm]
  refine ⟨h2, h1, ?_⟩
  have hwB2 : tkB.now - (process st tkA).1.activation_time < 3/2 := by
    rw [h2]
    exact hwB
  rw [process_some (process st tkA).1 tkB hB hretB hselB]
  simp only [processHand]
  rw [modeStep_enter (process st tkA).1 hB tkB.now
    (pushSample (process st tkA).1.history (wristSample tkB hB)) h1 hgB hwB2 hpB]
  rw [swipeStep_active _ _ rfl]

theorem C2_armed_at_not_stale_amended_witness :
    (process initState (mkTick [foldHandW pMid] (1/2))).1.activation_time =
      initState.activation_time ∧
    (process initState (mkTick [foldHandW pMid] (1/2))).1.scroll_mode = false ∧
    (process (process initState (mkTick [foldHandW pMid] (1/2))).1
        (mkTick [pointHandW pMid] 1)).1.scroll_mode = true :=
  C2_armed_at_not_stale_amended initState (mkTick [foldHandW pMid] (1/2))
    (mkTick [pointHandW pMid] 1) (foldHandW pMid) (pointHandW pMid) rfl
    (by norm_num [selectClosestHand, selStep, handArea, foldHandW, pMid, mkTick,
      max_def, min_def])
    rfl
    (by norm_num [countFingers, lmAt, foldHandW, pMid])
    (by norm_num [countFingers, lmAt, foldHandW, pMid])
    rfl
    (by norm_num [selectClosestHand, selStep, handArea, pointHandW, pMid, mkTick,
      max_def, min_def])
    (by norm_num [countFingers, lmAt, pointHandW, pMid])
    (by norm_num [isPointingAtCamera, lmAt, pointHandW, pMid, decide_eq_true_eq])
    (by norm_num [mkTick, initState])

/-- Wrist position at the left edge of the frame. -/
def pLeft : Point := ⟨0, 1/2, 0⟩

/-- C3 counterexample: A reachable scroll-mode state: five fingers at
t = 0 (wrist at x = 0), one finger pointing at t = 0.1 enters scroll mode;
the next tick (t = 0.25, folded hand, wrist at x = 0.5) *begins* in
`Active`, fails the guard, and — because line 149 re-reads `scroll_mode`
after it was just cleared — runs swipe classification and emits
`swipe_right`, contradicting "only scroll events may be emitted on a tick
that begins in Active". -/
theorem C3_counterexample :
    (runTicks initState
      [mkTick [fiveHandW pLeft] 0, mkTick [pointHandW pLeft] (1/10)]).scroll_mode
        = true ∧
    (process
      (runTicks initState
        [mkTick [fiveHandW pLeft] 0, mkTick [pointHandW pLeft] (1/10)])
      (mkTick [foldHandW pMid] (1/4))).2.1 = some ⟨"swipe_right", none, none⟩ := by
  norm_num [runTicks, process, modeStep, swipeStep, detectSwipe, swipeDt, swipeVx, swipeVy,
    selectClosestHand, selStep, handArea, countFingers, isPointingAtCamera, pushSample,
    wristSample, initState, mkTick, fiveHandW, pointHandW, foldHandW, pMid, pLeft, lmAt,
    max_def, min_def]

/-- C3 amended: On a tick that begins in scroll mode, finger-count
events are impossible and the wrist sample is appended; while the guard
holds only a `scroll` event is emitted; but on the tick where the guard
fails (exit to idle) swipe classification *does* run on the just-updated
history and the tick's event is exactly the swipe classification result. -/
theorem C3_active_tick_amended (st : DetectorState) (tk : Tick) (h : Hand)
    (hret : tk.ret = true) (hsel : selectClosestHand tk.hands = some h)
    (hsm : st.scroll_mode = true) :
    (∀ n, (process st tk).2.1 ≠ some ⟨"fingers", some n, none⟩) ∧
    (countFingers h = 1 ∧ isPointingAtCamera h = true →
      (process st tk).2.1 = some ⟨"scroll", none,
        some (st.scroll_ref_y.getD ((lmAt h 8).y) - (lmAt h 8).y)⟩ ∧
      (process st tk).1.history = pushSample st.history (wristSample tk h)) ∧
    (¬(countFingers h = 1 ∧ isPointingAtCamera h = true) →
      (process st tk).2.1 =
        ((detectSwipe (pushSample st.history (wristSample tk h))).1).map
          (fun s => ⟨s, none, none⟩)) := by
  rw [process_some st tk h hret hsel]
  simp only [processHand]
  by_cases hg : countFingers h = 1 ∧ isPointingAtCamera h = true
  · rw [modeStep_scroll_loop st h tk.now
      (pushSample st.history (wristSample tk h)) hsm hg.1 hg.2]
    rw [swipeStep_active _ _ (by rw [hsm])]
    exact ⟨fun n => by simp, fun _ => ⟨rfl, rfl⟩, fun hng => absurd hg hng⟩
  · rw [modeStep_scroll_exit st h tk.now
      (pushSample st.history (wristSample tk h)) hsm hg]
    cases hsw : (detectSwipe (pushSample st.history (wristSample tk h))).1 with
    | none =>
      rw [swipeStep_no_match
        ⟨pushSample st.history (wristSample tk h), st.last_finger_time, false,
          st.activation_time, none⟩ none rfl hsw]
      exact ⟨fun n => by simp, fun hcon => absurd hcon hg, fun _ => by simp [hsw]⟩
    | some s =>
      rw [swipeStep_match
        ⟨pushSample st.history (wristSample tk h), st.last_finger_time, false,
          st.activation_time, none⟩ none s rfl hsw]
      exact ⟨fun n => by simp, fun hcon => absurd hcon hg, fun _ => by simp [hsw]⟩

theorem C3_active_tick_amended_witness :
    (process ⟨[], 0, true, 0, some (1/2)⟩ (mkTick [foldHandW pMid] 1)).2.1 =
      ((detectSwipe (pushSample []
          (wristSample (mkTick [foldHandW pMid] 1) (foldHandW pMid)))).1).map
        (fun s => ⟨s, none, none⟩) :=
  (C3_active_tick_amended ⟨[], 0, true, 0, some (1/2)⟩ (mkTick [foldHandW pMid] 1)
    (foldHandW pMid) rfl
    (by norm_num [selectClosestHand, selStep, handArea, foldHandW, pMid, mkTick,
      max_def, min_def])
    rfl).2.2
    (by norm_num [countFingers, lmAt, foldHandW, pMid])

/-- C4 counterexample: A `fingers` emission at t = 10 (count 3) sets
the watermark to 10; another count-3 observation at t = 10.5 — exactly
0.5 s later — emits nothing and leaves the watermark unchanged, because
line 144 requires *strictly more* than 0.5 s, contradicting "observed at
least 0.5 seconds after the previous fingers emission emits a fingers
event".  (A count of 5 also never emits: it is captured by the arming
branch on line 137.) -/
theorem C4_counterexample :
    (runTicks initState [mkTick [threeHandW pMid] 10]).last_finger_time = 10 ∧
    (process (runTicks initState [mkTick [threeHandW pMid] 10])
        (mkTick [threeHandW pMid] (21/2))).2.1 = none ∧
    (process (runTicks initState [mkTick [threeHandW pMid] 10])
        (mkTick [threeHandW pMid] (21/2))).1.last_finger_time = 10 := by
  norm_num [runTicks, process, modeStep, swipeStep, detectSwipe, swipeDt, swipeVx, swipeVy,
    selectClosestHand, selStep, handArea, countFingers, isPointingAtCamera, pushSample,
    wristSample, initState, mkTick, threeHandW, pMid, lmAt, max_def, min_def]

/-- C4 amended: In a non-scroll tick: a count of 5 never emits a
`fingers` event (the tick re-arms, setting `_activation_time = now`); for
a nonzero count other than 5, when the scroll-entry guard does not fire, a
`fingers` event with that count is emitted iff the observation is
*strictly more* than 0.5 s after the previous emission (the watermark then
moves to `now`, and the event is the tick's result unless a swipe
overwrites it); at 0.5 s or less nothing is emitted and the watermark is
unchanged. -/
theorem C4_fingers_debounce_amended :
    (∀ st tk h, tk.ret = true → selectClosestHand tk.hands = some h →
      st.scroll_mode = false → countFingers h = 5 →
      (process st tk).1.activation_time = tk.now ∧
      (∀ n, (process st tk).2.1 ≠ some ⟨"fingers", some n, none⟩)) ∧
    (∀ st tk h, tk.ret = true → selectClosestHand tk.hands = some h →
      st.scroll_mode = false → countFingers h ≠ 5 → countFingers h ≠ 0 →
      ¬(countFingers h = 1 ∧ tk.now - st.activation_time < 3/2 ∧
         isPointingAtCamera h = true) →
      (tk.now - st.last_finger_time > 1/2 →
        (process st tk).1.last_finger_time = tk.now ∧
        ((detectSwipe (pushSample st.history (wristSample tk h))).1 = none →
          (process st tk).2.1 = some ⟨"fingers", some (countFingers h), none⟩)) ∧
      (¬(tk.now - st.last_finger_time > 1/2) →
        (process st tk).1.last_finger_time = st.last_finger_time ∧
        (∀ n, (process st tk).2.1 ≠ some ⟨"fingers", some n, none⟩))) := by
  constructor
  · intro st tk h hret hsel hsm h5
    rw [process_some st tk h hret hsel]
    simp only [processHand]
    rw [modeStep_five st h tk.now (pushSample st.history (wristSample tk h)) hsm h5]
    constructor
    · exact (swipeStep_fields _ _).2.1
    · intro n
      cases hsw : (detectSwipe (pushSample st.history (wristSample tk h))).1 with
      | none =>
        rw [swipeStep_no_match
          ⟨pushSample st.history (wristSample tk h), st.last_finger_time,
            st.scroll_mode, tk.now, st.scroll_ref_y⟩ none hsm hsw]
        simp
      | some s =>
        rw [swipeStep_match
          ⟨pushSample st.history (wristSample tk h), st.last_finger_time,
            st.scroll_mode, tk.now, st.scroll_ref_y⟩ none s hsm hsw]
        simp
  · intro st tk h hret hsel hsm h5 hnz hng
    constructor
    · intro hdeb
      rw [process_some st tk h hret hsel]
      simp only [processHand]
      rw [modeStep_fingers_event st h tk.now
        (pushSample st.history (wristSample tk h)) hsm h5 hng hnz hdeb]
      constructor
      · exact (swipeStep_fields _ _).2.2.1
      · intro hnosw
        rw [swipeStep_no_match
          ⟨pushSample st.history (wristSample tk h), tk.now, st.scroll_mode,
            st.activation_time, st.scroll_ref_y⟩
          (some ⟨"fingers", some (countFingers h), none⟩) hsm hnosw]
    · intro hnodeb
      rw [process_some st tk h hret hsel]
      simp only [processHand]
      rw [modeStep_idle_silent st h tk.now
        (pushSample st.history (wristSample tk h)) hsm h5 hng
        (by rintro ⟨-, hdeb⟩; exact hnodeb hdeb)]
      constructor
      · exact (swipeStep_fields _ _).2.2.1
      · intro n
        cases hsw : (detectSwipe (pushSample st.history (wristSample tk h))).1 with
        | none =>
          rw [swipeStep_no_match
            ⟨pushSample st.history (wristSample tk h), st.last_finger_time,
              st.scroll_mode, st.activation_time, st.scroll_ref_y⟩ none hsm hsw]
          simp
        | some s =>
          rw [swipeStep_match
            ⟨pushSample st.history (wristSample tk h), st.last_finger_time,
              st.scroll_mode, st.activation_time, st.scroll_ref_y⟩ none s hsm hsw]
          simp

theorem C4_fingers_debounce_amended_witness :
    (process initState (mkTick [threeHandW pMid] 10)).1.last_finger_time = 10 ∧
    (process initState (mkTick [threeHandW pMid] 10)).2.1 =
      some ⟨"fingers", some (countFingers (threeHandW pMid)), none⟩ := by
  have h := (C4_fingers_debounce_amended.2 initState (mkTick [threeHandW pMid] 10)
    (threeHandW pMid) rfl
    (by norm_num [selectClosestHand, selStep, handArea, threeHandW, pMid, mkTick,
      max_def, min_def])
    rfl
    (by norm_num [countFingers, lmAt, threeHandW, pMid])
    (by norm_num [countFingers, lmAt, threeHandW, pMid])
    (by norm_num [countFingers, lmAt, threeHandW, pMid])).1
    (by norm_num [mkTick, initState])
  exact ⟨h.1, h.2 rfl⟩

/-- C9: `process` returns a single `Optional[Gesture]` slot, so at most
one event per tick by construction; on a tick where the posture stage has
emitted a `fingers` event and swipe classification also matches, the swipe
unconditionally overwrites the slot (lines 150-152) and is the tick's
event. -/
theorem C9_swipe_overwrites_fingers (st : DetectorState) (tk : Tick) (h : Hand)
    (s : String)
    (hret : tk.ret = true) (hsel : selectClosestHand tk.hands = some h)
    (hsm : st.scroll_mode = false) (h5 : countFingers h ≠ 5)
    (hng : ¬(countFingers h = 1 ∧ tk.now - st.activation_time < 3/2 ∧
              isPointingAtCamera h = true))
    (hnz : countFingers h ≠ 0) (hdeb : tk.now - st.last_finger_time > 1/2)
    (hsw : (detectSwipe (pushSample st.history (wristSample tk h))).1 = some s) :
    (process st tk).2.1 = some ⟨s, none, none⟩ := by
  rw [process_some st tk h hret hsel]
  simp only [processHand]
  rw [modeStep_fingers_event st h tk.now
    (pushSample st.history (wristSample tk h)) hsm h5 hng hnz hdeb]
  rw [swipeStep_match
    ⟨pushSample st.history (wristSample tk h), tk.now, st.scroll_mode,
      st.activation_time, st.scroll_ref_y⟩
    (some ⟨"fingers", some (countFingers h), none⟩) s hsm hsw]

theorem C9_swipe_overwrites_fingers_witness :
    (process ⟨[⟨3/4, 0, 1/2⟩], 0, false, 0, none⟩
      (mkTick [threeHandW pMid] 1)).2.1 = some ⟨"swipe_right", none, none⟩ :=
  C9_swipe_overwrites_fingers ⟨[⟨3/4, 0, 1/2⟩], 0, false, 0, none⟩
    (mkTick [threeHandW pMid] 1) (threeHandW pMid) "swipe_right" rfl
    (by norm_num [selectClosestHand, selStep, handArea, threeHandW, pMid, mkTick,
      max_def, min_def])
    rfl
    (by norm_num [countFingers, lmAt, threeHandW, pMid])
    (by norm_num [countFingers, lmAt, threeHandW, pMid])
    (by norm_num [countFingers, lmAt, threeHandW, pMid])
    (by norm_num [mkTick])
    (by norm_num [detectSwipe, pushSample, wristSample, swipeDt, swipeVx, swipeVy,
      lmAt, threeHandW, pMid, mkTick])

lemma detectSwipe_some_snd {l : List Sample} {s : String}
    (h : (detectSwipe l).1 = some s) : (detectSwipe l).2 = [] := by
  unfold detectSwipe at *
  split_ifs at * <;> simp_all

lemma modeStep_history (st : DetectorState) (hand : Hand) (now : ℚ)
    (history1 : List Sample) :
    (modeStep st hand now history1).1.history = history1 := by
  unfold modeStep
  split_ifs <;> rfl

lemma swipeStep_history (st : DetectorState) (g : Option Gesture) :
    (swipeStep st g).1.history = st.history ∨
    ((swipeStep st g).1.history = [] ∧ (detectSwipe st.history).1 ≠ none) := by
  unfold swipeStep
  split
  · left
    rfl
  · cases hsw : (detectSwipe st.history).1 with
    | none =>
      left
      simp [hsw, detectSwipe_none_snd hsw]
    | some s =>
      right
      refine ⟨by simp [hsw, detectSwipe_some_snd hsw], by simp [hsw]⟩

/-- Six consecutive selected-hand ticks for the C8 counterexample: the
wrist jump between t = 0 and t = 0.25 fires `swipe_right` on the second
tick, clearing the history mid-sequence. -/
def c8Ticks : List Tick :=
  [mkTick [foldHandW pLeft] 0, mkTick [foldHandW pMid] (1/4),
   mkTick [foldHandW pMid] 1, mkTick [foldHandW pMid] 2,
   mkTick [foldHandW pMid] 3, mkTick [foldHandW pMid] 4]

/-- C8 counterexample: After six consecutive ticks that each select a
hand, the history does *not* necessarily hold the 5 most recent samples: a
swipe classification on the second tick clears the buffer (line 75), so
only the 4 samples appended afterwards remain. -/
theorem C8_counterexample :
    (c8Ticks.all fun tk => tk.ret && (selectClosestHand tk.hands).isSome) = true ∧
    (runTicks initState c8Ticks).history =
      [⟨1, 1/2, 1/2⟩, ⟨2, 1/2, 1/2⟩, ⟨3, 1/2, 1/2⟩, ⟨4, 1/2, 1/2⟩] := by
  norm_num [runTicks, process, modeStep, swipeStep, detectSwipe, swipeDt, swipeVx, swipeVy,
    selectClosestHand, selStep, handArea, countFingers, isPointingAtCamera, pushSample,
    wristSample, initState, mkTick, c8Ticks, foldHandW, pMid, pLeft, lmAt,
    max_def, min_def]

/-- C8 amended: The history is a capacity-5 FIFO: a selected-hand
tick appends the wrist sample, evicting the oldest sample when the buffer
is full; a tick with no detection or with the selection rejected clears it
entirely; and — the correction — a swipe match also clears it, so six
consecutive selected-hand ticks end with the 5 most recent samples only
when no swipe fires during them. -/
theorem C8_history_fifo_amended :
    (∀ history s, history.length < 5 →
      pushSample history s = history ++ [s]) ∧
    (∀ history s, history.length = 5 →
      pushSample history s = history.tail ++ [s]) ∧
    (∀ st tk, tk.ret = true → selectClosestHand tk.hands = none →
      (process st tk).1.history = []) ∧
    (∀ st tk h, tk.ret = true → selectClosestHand tk.hands = some h →
      (process st tk).1.history = pushSample st.history (wristSample tk h) ∨
      ((process st tk).1.history = [] ∧
        (detectSwipe (pushSample st.history (wristSample tk h))).1 ≠ none)) := by
  refine ⟨?_, ?_, ?_, ?_⟩
  · intro history s hlen
    unfold pushSample
    rw [if_neg (by simp only [List.length_append, List.length_cons,
      List.length_nil]; omega)]
  · intro history s hlen
    cases history with
    | nil => simp at hlen
    | cons a t =>
      have ht : t.length = 4 := by simpa using hlen
      unfold pushSample
      rw [if_pos (by simp [ht])]
      simp [ht]
  · intro st tk hret hsel
    unfold process
    rw [hret]
    by_cases he : tk.hands.isEmpty
    · simp [he, clearHistory]
    · simp only [Bool.not_eq_true] at he
      simp [he, hsel, clearHistory]
  · intro st tk h hret hsel
    rw [process_some st tk h hret hsel]
    simp only [processHand]
    have hH := modeStep_history st h tk.now (pushSample st.history (wristSample tk h))
    rcases swipeStep_history
        (modeStep st h tk.now (pushSample st.history (wristSample tk h))).1
        (modeStep st h tk.now (pushSample st.history (wristSample tk h))).2 with
      hcase | ⟨hnil, hne⟩
    · left
      exact hcase.trans hH
    · right
      refine ⟨hnil, ?_⟩
      rw [hH] at hne
      exact hne

theorem C8_history_fifo_amended_witness :
    pushSample [(⟨0, 0, 0⟩ : Sample), ⟨1, 0, 0⟩, ⟨2, 0, 0⟩, ⟨3, 0, 0⟩, ⟨4, 0, 0⟩]
        ⟨5, 0, 0⟩ =
      [⟨1, 0, 0⟩, ⟨2, 0, 0⟩, ⟨3, 0, 0⟩, ⟨4, 0, 0⟩, ⟨5, 0, 0⟩] := by
  have h := C8_history_fifo_amended.2.1
    [⟨0, 0, 0⟩, ⟨1, 0, 0⟩, ⟨2, 0, 0⟩, ⟨3, 0, 0⟩, ⟨4, 0, 0⟩] ⟨5, 0, 0⟩ (by norm_num)
  rw [h]
  rfl
